import Mathlib

/-!
Shallow embedding of `src/whisper/transcript.py` (whisper-aws-serverless).

The repository is a single Python module with two functions:
  * `lambda_handler` — parses an S3 object-created event, downloads the named
    object to `/tmp/audio.wav`, runs `process_audio` on it, and uploads the
    JSON-encoded transcript back to the same bucket under
    `processed/<key>.json`.
  * `process_audio` — checks that the model file and the audio file exist,
    builds the `whisper-cli` command line and a child environment with
    `LD_LIBRARY_PATH` extended by the executable's bin directory, runs the
    command through the shell, and post-processes the captured output
    (UTF-8 decode, strip, remove the `[BLANK_AUDIO]` sentinel, strip again).

Python-side effects are made explicit: the filesystem, the process
environment, the S3 object store and the log of spawned subprocesses live in
a `PyState` record that every operation threads; the external binary is an
oracle `run : String → Env → SubprocResult` supplied as a parameter.
Exceptions become `Except PyError`.
-/

/-- Python exceptions that the module can raise, by kind. -/
inductive PyError where
  | fileNotFound (msg : String)
  | keyError (key : String)
  | indexError (i : Nat)
  | typeError (msg : String)
  | clientError (msg : String)
  | exc (msg : String)
deriving DecidableEq, Repr

/-- A process environment, as Python's `os.environ` / `env` dicts: an
association list of variable names to values, queried by first match. -/
abbrev Env := List (String × String)

/-- `d.get(k)` on an environment dict: first binding of `k`, if any. -/
def envGet (e : Env) (k : String) : Option String :=
  List.lookup k e

/-- `d[k] = v` on an environment dict: bind `k` to `v`, dropping any old
binding so that lookups and iteration see a single entry per key. -/
def envSet (e : Env) (k v : String) : Env :=
  (k, v) :: e.filter (fun p => p.1 != k)

/-- Result of `subprocess.Popen(...).communicate()` plus the exit status:
the decoded standard output and standard error streams (the claims range
over engine outputs that decode as UTF-8, so streams are `String`s) and
`returncode`. -/
structure SubprocResult where
  returncode : Int
  output : String
  error : String
deriving DecidableEq, Repr

/-- One recorded `subprocess.Popen` call: the command line passed, the
`shell` flag it was passed with, and the child environment. -/
structure Spawn where
  cmd : String
  shell : Bool
  env : Env
deriving DecidableEq, Repr

/-- The Python-visible world state threaded through the functions:
local files (path to contents, presence = membership), the parent process
environment `os.environ`, the S3 store (bucket, key, body — first match
wins, so prepending models `put_object` overwrite), and the log of spawned
subprocesses. -/
structure PyState where
  files : List (String × String)
  environ : Env
  s3 : List (String × String × String)
  spawned : List Spawn
deriving DecidableEq, Repr

/-- `os.path.exists p` against the modelled filesystem. -/
def fileExists (st : PyState) (p : String) : Bool :=
  (List.lookup p st.files).isSome

/-- Writing a local file (used by the S3 download): prepend, so later
lookups see the fresh contents. -/
def fsWrite (st : PyState) (p body : String) : PyState :=
  { st with files := (p, body) :: st.files }

/-- `posixpath.join a b`: `b` wins if absolute; otherwise concatenate,
inserting `/` unless `a` is empty or already ends with one. The
starts-with / ends-with tests are phrased on the character data so the
kernel can evaluate them. -/
def pathJoin (a b : String) : String :=
  if b.data.head? = some '/' then b
  else if a.data = [] || a.data.getLast? = some '/' then a ++ b
  else a ++ "/" ++ b

/-- `os.environ.get('LAMBDA_TASK_ROOT', '.')`. -/
def taskRoot (environ : Env) : String :=
  (envGet environ "LAMBDA_TASK_ROOT").getD "."

/-- `os.path.join(os.environ.get('LAMBDA_TASK_ROOT', '.'), 'bin', 'whisper-cli')`. -/
def whisperCliPath (environ : Env) : String :=
  pathJoin (pathJoin (taskRoot environ) "bin") "whisper-cli"

/-- `os.path.join(os.environ.get('LAMBDA_TASK_ROOT', '.'), 'bin')`. -/
def binPath (environ : Env) : String :=
  pathJoin (taskRoot environ) "bin"

/-- The child environment: a copy of `os.environ` whose `LD_LIBRARY_PATH`
entry is set to `bin_path:existing` when an existing non-empty value is
present, else to `bin_path` alone. -/
def childEnv (environ : Env) : Env :=
  let existing := (envGet environ "LD_LIBRARY_PATH").getD ""
  envSet environ "LD_LIBRARY_PATH"
    (if existing ≠ "" then binPath environ ++ ":" ++ existing else binPath environ)

/-- `f"models/ggml-{model_name}.bin"`. -/
def modelPath (model_name : String) : String :=
  "models/ggml-" ++ model_name ++ ".bin"

/-- `f"{whisper_cli} -m {model} -f {wav_file} -nt"` — the single
string handed to the shell. -/
def fullCommand (environ : Env) (wav_file model_name : String) : String :=
  whisperCliPath environ ++ " -m " ++ modelPath model_name
    ++ " -f " ++ wav_file ++ " -nt"

/-- Python `str.replace(pat, rep)` on character lists: a single
left-to-right scan replacing non-overlapping occurrences of `pat` and
continuing after the replacement. `fuel` is a structural bound so the
kernel can evaluate the function; callers pass the input length, which
suffices because every step consumes at least one input character when the
pattern is non-empty (the module only ever replaces the non-empty literal
sentinel, so Python's special empty-pattern behaviour is irrelevant). -/
def pyReplaceGo (p r : List Char) : Nat → List Char → List Char
  | _, [] => []
  | 0, l => l
  | Nat.succ fuel, c :: t =>
    if p ≠ [] && p.isPrefixOf (c :: t) then
      r ++ pyReplaceGo p r fuel ((c :: t).drop p.length)
    else
      c :: pyReplaceGo p r fuel t

/-- Python `str.replace(pat, rep)`. -/
def pyReplace (s pat rep : String) : String :=
  String.mk (pyReplaceGo pat.data rep.data s.data.length s.data)

/-- Python `str.strip` on the character list (over the ASCII whitespace
characters that `Char.isWhitespace` covers). -/
def trimChars (l : List Char) : List Char :=
  (((l.dropWhile Char.isWhitespace).reverse.dropWhile Char.isWhitespace)).reverse

/-- Python `str.strip`. -/
def pyStrip (s : String) : String :=
  String.mk (trimChars s.data)

/-- `process_audio(wav_file, model_name)`: model and audio existence checks,
command and environment construction, one shell subprocess via the `run`
oracle, error mapping on non-zero exit, and output post-processing. -/
def process_audio (run : String → Env → SubprocResult) (st : PyState)
    (wav_file : String) (model_name : String) :
    Except PyError String × PyState :=
  let model := modelPath model_name
  if fileExists st model = false then
    (Except.error (PyError.fileNotFound
      ("Model file not found: " ++ model
        ++ " \n\nDownload a model with this command:\n\n> bash ./models/download-ggml-model.sh "
        ++ model_name ++ "\n\n")), st)
  else if fileExists st wav_file = false then
    (Except.error (PyError.fileNotFound ("WAV file not found: " ++ wav_file)), st)
  else
    let env := childEnv st.environ
    let full_command := fullCommand st.environ wav_file model_name
    let st1 := { st with spawned := st.spawned ++ [⟨full_command, true, env⟩] }
    let res := run full_command env
    if res.returncode ≠ 0 then
      let error_msg := if res.error ≠ "" then res.error else "Unknown error"
      (Except.error (PyError.exc
        ("Error processing audio (exit code " ++ toString res.returncode
          ++ "): " ++ error_msg)), st1)
    else
      (Except.ok (pyStrip (pyReplace (pyStrip res.output) "[BLANK_AUDIO]" "")), st1)

/-- A JSON-like Python value, for the Lambda event payload. -/
inductive JVal where
  | jnull
  | jbool (b : Bool)
  | jnum (n : Int)
  | jstr (s : String)
  | jarr (xs : List JVal)
  | jobj (fields : List (String × JVal))

/-- Python `v[k]` for a string key: `KeyError` on a dict without the key,
`TypeError` on anything that is not a dict. -/
def jGet (v : JVal) (k : String) : Except PyError JVal :=
  match v with
  | JVal.jobj fields =>
    match List.lookup k fields with
    | some x => Except.ok x
    | none => Except.error (PyError.keyError k)
  | _ => Except.error (PyError.typeError "value is not subscriptable by string key")

/-- Python `v[i]` for an integer index: `IndexError` past the end of a list,
`KeyError` on a dict, `TypeError` otherwise. -/
def jIndex (v : JVal) (i : Nat) : Except PyError JVal :=
  match v with
  | JVal.jarr xs =>
    match xs.get? i with
    | some x => Except.ok x
    | none => Except.error (PyError.indexError i)
  | JVal.jobj _ => Except.error (PyError.keyError (toString i))
  | _ => Except.error (PyError.typeError "value is not subscriptable by index")

/-- Extract the leaf as the string that boto3 requires for a bucket name or
object key (boto3 rejects non-string names before any request is made). -/
def jStr (v : JVal) : Except PyError String :=
  match v with
  | JVal.jstr s => Except.ok s
  | _ => Except.error (PyError.typeError "expected a string value")

/-- `event['Records'][0]['s3']['bucket']['name']`. -/
def getBucketName (event : JVal) : Except PyError String := do
  let records ← jGet event "Records"
  let r0 ← jIndex records 0
  let s3f ← jGet r0 "s3"
  let bucket ← jGet s3f "bucket"
  jStr (← jGet bucket "name")

/-- `event['Records'][0]['s3']['object']['key']` — the source re-traverses
the event from the root on its second line. -/
def getObjectKey (event : JVal) : Except PyError String := do
  let records ← jGet event "Records"
  let r0 ← jIndex records 0
  let s3f ← jGet r0 "s3"
  let obj ← jGet s3f "object"
  jStr (← jGet obj "key")

/-- The two extraction statements at the top of `lambda_handler`, in source
order: bucket name first, then object key. -/
def extractBucketKey (event : JVal) : Except PyError (String × String) := do
  let bucket_name ← getBucketName event
  let object_key ← getObjectKey event
  return (bucket_name, object_key)

/-- First stored body under (bucket, key), as S3 serves the latest put. -/
def s3Lookup (s3 : List (String × String × String)) (b k : String) : Option String :=
  (s3.find? (fun r => r.1 == b && r.2.1 == k)).map (fun r => r.2.2)

/-- `s3.download_file(bucket, key, path)`: write the object body to the
local path, or fail with a client error when the object is absent. -/
def s3Download (st : PyState) (bucket key path : String) :
    Except PyError Unit × PyState :=
  match s3Lookup st.s3 bucket key with
  | none => (Except.error (PyError.clientError ("NoSuchKey: " ++ bucket ++ "/" ++ key)), st)
  | some body => (Except.ok (), fsWrite st path body)

/-- One hex digit. -/
def hexDigit (n : Nat) : Char :=
  if n < 10 then Char.ofNat (48 + n) else Char.ofNat (87 + n)

/-- `json.dumps` escaping of one character (the ASCII fragment that the
module's strings exercise: quote, backslash, named control escapes, and
`\u00XX` for the remaining control characters). -/
def jsonEscapeChar (c : Char) : String :=
  if c = '"' then "\\\""
  else if c = '\\' then "\\\\"
  else if c = '\n' then "\\n"
  else if c = '\t' then "\\t"
  else if c = '\r' then "\\r"
  else if c = Char.ofNat 8 then "\\b"
  else if c = Char.ofNat 12 then "\\f"
  else if c.toNat < 32 then
    "\\u00" ++ String.mk [hexDigit (c.toNat / 16), hexDigit (c.toNat % 16)]
  else String.singleton c

/-- `json.dumps` of a Python string: quoted, characters escaped. -/
def jsonDumpsStr (s : String) : String :=
  "\"" ++ String.join (s.data.map jsonEscapeChar) ++ "\""

/-- The `{'statusCode': ..., 'body': ...}` response envelope. -/
structure HandlerResponse where
  statusCode : Nat
  body : String
deriving DecidableEq, Repr

/-- `lambda_handler(event, context)`: extract bucket and key, download the
object to `/tmp/audio.wav`, check it exists, transcribe it with the default
model name `"tiny"` (the Python call site relies on the parameter default),
upload the JSON-encoded transcript to `processed/<key>.json`, and return a
200 envelope. Any raised error aborts the remaining stages. -/
def lambda_handler (run : String → Env → SubprocResult) (st : PyState)
    (event : JVal) : Except PyError HandlerResponse × PyState :=
  match extractBucketKey event with
  | Except.error e => (Except.error e, st)
  | Except.ok (bucket_name, object_key) =>
    let audio_file := "/tmp/audio.wav"
    match s3Download st bucket_name object_key audio_file with
    | (Except.error e, st1) => (Except.error e, st1)
    | (Except.ok _, st1) =>
      if fileExists st1 audio_file = false then
        (Except.error (PyError.fileNotFound ("WAV file not found: " ++ audio_file)), st1)
      else
        match process_audio run st1 audio_file "tiny" with
        | (Except.error e, st2) => (Except.error e, st2)
        | (Except.ok result, st2) =>
          let result_key := "processed/" ++ object_key ++ ".json"
          let st3 := { st2 with s3 := (bucket_name, result_key, jsonDumpsStr result) :: st2.s3 }
          (Except.ok ⟨200, jsonDumpsStr "Processing complete"⟩, st3)

/-- The string has no leading and no trailing whitespace character. -/
def noEdgeWS (s : String) : Bool :=
  (s.data.head?.all (fun c => !c.isWhitespace))
    && (s.data.getLast?.all (fun c => !c.isWhitespace))

/-- `p` occurs as a contiguous substring of the character list. -/
def occursInList (p : List Char) : List Char → Bool
  | [] => p.isEmpty
  | c :: t => p.isPrefixOf (c :: t) || occursInList p t

/-- `p` occurs as a contiguous substring of `s` (Python `p in s`). -/
def occursIn (p s : String) : Bool :=
  occursInList p.data s.data

/-- A character the default shell field separator splits on. -/
def isIFS (c : Char) : Bool :=
  c = ' ' || c = '\t' || c = '\n'

/-- Accumulator-style word splitting: `acc` holds the reversed current
word; separators close the word, everything else extends it. -/
def wordsGo (acc : List Char) : List Char → List (List Char)
  | [] => if acc.isEmpty then [] else [acc.reverse]
  | c :: t =>
    if isIFS c then
      if acc.isEmpty then wordsGo [] t else acc.reverse :: wordsGo [] t
    else
      wordsGo (c :: acc) t

/-- POSIX-shell field splitting of an unquoted command string (the fragment
of `sh -c` semantics that a metacharacter-free command exercises): split on
IFS characters into the argument vector. -/
def shellSplit (s : String) : List String :=
  (wordsGo [] s.data).map String.mk

/-- The head of a `dropWhile p` result never satisfies `p`. -/
theorem head?_dropWhile_not (p : Char → Bool) :
    ∀ (l : List Char) (c : Char), (l.dropWhile p).head? = some c → p c = false := by
  intro l
  induction l with
  | nil => intro c h; simp at h
  | cons a t ih =>
    intro c h
    rw [List.dropWhile_cons] at h
    by_cases hp : p a
    · rw [if_pos hp] at h
      exact ih c h
    · rw [if_neg hp] at h
      simp only [List.head?_cons, Option.some.injEq] at h
      subst h
      simpa using hp

/-- Dropping from the front cannot cross a final element that fails `p`. -/
theorem dropWhile_append_last (p : Char → Bool) (a : Char) (ha : p a = false) :
    ∀ (xs : List Char), (xs ++ [a]).dropWhile p = xs.dropWhile p ++ [a] := by
  intro xs
  induction xs with
  | nil => simp [List.dropWhile, ha]
  | cons x t ih =>
    by_cases hx : p x
    · simp [List.dropWhile_cons, hx, ih]
    · simp [List.dropWhile_cons, hx]

/-- Stripping leaves no whitespace at either end. -/
theorem noEdgeWS_pyStrip (s : String) : noEdgeWS (pyStrip s) = true := by
  show (((trimChars s.data).head?.all fun c => !c.isWhitespace)
      && ((trimChars s.data).getLast?.all fun c => !c.isWhitespace)) = true
  rw [Bool.and_eq_true]
  constructor
  · rw [trimChars, List.head?_reverse]
    rcases hm : s.data.dropWhile Char.isWhitespace with _ | ⟨a, t⟩
    · simp
    · have ha : a.isWhitespace = false := by
        apply head?_dropWhile_not Char.isWhitespace s.data
        rw [hm]; rfl
      rw [List.reverse_cons, dropWhile_append_last Char.isWhitespace a ha,
        List.getLast?_concat]
      simp [ha]
  · rw [trimChars, List.getLast?_reverse]
    rcases h2 : (s.data.dropWhile Char.isWhitespace).reverse.dropWhile Char.isWhitespace
      with _ | ⟨c, t2⟩
    · simp
    · have hc : c.isWhitespace = false := by
        apply head?_dropWhile_not Char.isWhitespace
          (s.data.dropWhile Char.isWhitespace).reverse
        rw [h2]; rfl
      simp [hc]

/-- A list is a `isPrefixOf`-prefix of itself followed by anything. -/
theorem isPrefixOf_append_self (p b : List Char) : p.isPrefixOf (p ++ b) = true := by
  induction p with
  | nil => simp [List.isPrefixOf]
  | cons a t ih => simp [List.isPrefixOf, ih]

/-- The empty pattern occurs in every list. -/
theorem occursInList_nil (l : List Char) : occursInList [] l = true := by
  cases l <;> simp [occursInList, List.isPrefixOf]

/-- A pattern occurs at the front of itself followed by anything. -/
theorem occursInList_self_append (p b : List Char) :
    occursInList p (p ++ b) = true := by
  cases p with
  | nil => exact occursInList_nil b
  | cons c t =>
    rw [List.cons_append]
    simp only [occursInList]
    rw [← List.cons_append, isPrefixOf_append_self]
    simp

/-- A pattern occurs in any list that embeds it contiguously. -/
theorem occursInList_mid (p : List Char) :
    ∀ (a b : List Char), occursInList p (a ++ (p ++ b)) = true := by
  intro a
  induction a with
  | nil =>
    intro b
    rw [List.nil_append]
    exact occursInList_self_append p b
  | cons x xs ih =>
    intro b
    rw [List.cons_append]
    simp only [occursInList]
    rw [ih b]
    simp

/-- Substring occurrence, via a decomposition of the character data. -/
theorem occursIn_of_data (p s : String) (a b : List Char)
    (h : s.data = a ++ (p.data ++ b)) : occursIn p s = true := by
  show occursInList p.data s.data = true
  rw [h]
  exact occursInList_mid p.data a b

/-- Setting a key makes it readable. -/
theorem envGet_envSet_self (e : Env) (k v : String) :
    envGet (envSet e k v) k = some v := by
  simp [envGet, envSet, List.lookup_cons]

/-- Filtering out one key leaves lookups of every other key alone. -/
theorem lookup_filter_ne (k k' : String) (hk : k' ≠ k) :
    ∀ (e : Env), List.lookup k' (e.filter (fun p => p.1 != k)) = List.lookup k' e := by
  intro e
  induction e with
  | nil => rfl
  | cons kv t ih =>
    rcases kv with ⟨a, v⟩
    by_cases ha : a = k
    · subst ha
      have h2 : (k' == a) = false := by simp [hk]
      simp [List.filter_cons, List.lookup_cons, h2, ih]
    · have h1 : ((a, v).1 != k) = true := by simp [ha]
      simp [List.filter_cons, List.lookup_cons, h1, ih]

/-- Setting one key leaves every other key alone. -/
theorem envGet_envSet_ne (e : Env) (k v k' : String) (h : k' ≠ k) :
    envGet (envSet e k v) k' = envGet e k' := by
  simp only [envGet, envSet, List.lookup_cons]
  have hb : (k' == k) = false := by simp [h]
  rw [hb]
  exact lookup_filter_ne k k' h e

/-- `process_audio` touches neither the local files, nor the parent
environment, nor the S3 store. -/
theorem process_audio_state (run : String → Env → SubprocResult) (st : PyState)
    (wav m : String) :
    (process_audio run st wav m).2.files = st.files
    ∧ (process_audio run st wav m).2.environ = st.environ
    ∧ (process_audio run st wav m).2.s3 = st.s3 := by
  simp only [process_audio]
  split
  · exact ⟨rfl, rfl, rfl⟩
  · split
    · exact ⟨rfl, rfl, rfl⟩
    · split
      · exact ⟨rfl, rfl, rfl⟩
      · exact ⟨rfl, rfl, rfl⟩

/-- `process_audio` either spawns nothing (a failed precondition) or
appends exactly one shell spawn of the full command with the child
environment. -/
theorem process_audio_spawned (run : String → Env → SubprocResult) (st : PyState)
    (wav m : String) :
    (process_audio run st wav m).2.spawned = st.spawned
    ∨ (process_audio run st wav m).2.spawned
        = st.spawned ++ [⟨fullCommand st.environ wav m, true, childEnv st.environ⟩] := by
  simp only [process_audio]
  split
  · exact Or.inl rfl
  · split
    · exact Or.inl rfl
    · split
      · exact Or.inr rfl
      · exact Or.inr rfl

/-- Claim C3: for every model name `m` with no file at
`models/ggml-<m>.bin`, `process_audio` fails with a file-not-found error
whose message contains the literal download-command hint
`bash ./models/download-ggml-model.sh <m>`. -/
theorem process_audio_missing_model_hint (run : String → Env → SubprocResult)
    (st : PyState) (wav m : String)
    (h : fileExists st (modelPath m) = false) :
    ∃ msg, (process_audio run st wav m).1 = Except.error (PyError.fileNotFound msg)
      ∧ occursIn ("bash ./models/download-ggml-model.sh " ++ m) msg = true := by
  refine ⟨"Model file not found: " ++ modelPath m
      ++ " \n\nDownload a model with this command:\n\n> bash ./models/download-ggml-model.sh "
      ++ m ++ "\n\n", ?_, ?_⟩
  · simp [process_audio, h]
  · apply occursIn_of_data _ _
      (("Model file not found: " ++ modelPath m
        ++ " \n\nDownload a model with this command:\n\n> ").data)
      (("\n\n").data)
    have hsplit : (" \n\nDownload a model with this command:\n\n> bash ./models/download-ggml-model.sh " : String).data
        = (" \n\nDownload a model with this command:\n\n> " : String).data
          ++ ("bash ./models/download-ggml-model.sh " : String).data := by decide
    simp only [String.data_append, hsplit]
    simp [List.append_assoc]

/-- Witness for C3 at the empty state and model name `tiny`. -/
theorem process_audio_missing_model_hint_witness :
    fileExists ⟨[], [], [], []⟩ (modelPath "tiny") = false
    ∧ ∃ msg, (process_audio (fun _ _ => ⟨0, "", ""⟩) ⟨[], [], [], []⟩ "a.wav" "tiny").1
          = Except.error (PyError.fileNotFound msg)
        ∧ occursIn ("bash ./models/download-ggml-model.sh " ++ "tiny") msg = true :=
  ⟨by decide, process_audio_missing_model_hint _ _ _ _ (by decide)⟩

/-- Claim C4: when the model file exists but the audio path does not,
`process_audio` raises the missing-audio error and the whole state — in
particular the spawn log — is untouched: the external executable is never
started. -/
theorem process_audio_missing_audio_no_spawn (run : String → Env → SubprocResult)
    (st : PyState) (wav m : String)
    (hm : fileExists st (modelPath m) = true)
    (hw : fileExists st wav = false) :
    process_audio run st wav m
      = (Except.error (PyError.fileNotFound ("WAV file not found: " ++ wav)), st) := by
  simp [process_audio, hm, hw]

/-- Witness for C4: model present, audio absent. -/
theorem process_audio_missing_audio_no_spawn_witness :
    fileExists ⟨[("models/ggml-tiny.bin", "")], [], [], []⟩ (modelPath "tiny") = true
    ∧ fileExists ⟨[("models/ggml-tiny.bin", "")], [], [], []⟩ "b.wav" = false
    ∧ process_audio (fun _ _ => ⟨0, "", ""⟩) ⟨[("models/ggml-tiny.bin", "")], [], [], []⟩
        "b.wav" "tiny"
      = (Except.error (PyError.fileNotFound ("WAV file not found: " ++ "b.wav")),
          ⟨[("models/ggml-tiny.bin", "")], [], [], []⟩) :=
  ⟨by decide, by decide,
    process_audio_missing_audio_no_spawn _ _ _ _ (by decide) (by decide)⟩

/-- On a non-zero exit status `c` with captured error stream `err`, the
raised execution error embeds `c` and `err` (or the placeholder). -/
theorem process_audio_nonzero_exit (run : String → Env → SubprocResult)
    (st : PyState) (wav m : String) (c : Int) (out err : String)
    (hm : fileExists st (modelPath m) = true)
    (hw : fileExists st wav = true)
    (hr : run (fullCommand st.environ wav m) (childEnv st.environ) = ⟨c, out, err⟩)
    (hc : c ≠ 0) :
    ∃ msg, (process_audio run st wav m).1 = Except.error (PyError.exc msg)
      ∧ occursIn (toString c) msg = true
      ∧ (err ≠ "" → occursIn err msg = true)
      ∧ (err = "" → occursIn "Unknown error" msg = true) := by
  refine ⟨"Error processing audio (exit code " ++ toString c ++ "): "
      ++ (if err ≠ "" then err else "Unknown error"), ?_, ?_, ?_, ?_⟩
  · simp [process_audio, hm, hw, hr, hc]
  · apply occursIn_of_data _ _ (("Error processing audio (exit code " : String).data)
      (("): " : String).data ++ (if err ≠ "" then err else "Unknown error").data)
    simp [String.data_append, List.append_assoc]
  · intro h
    rw [if_pos h]
    apply occursIn_of_data _ _
      (("Error processing audio (exit code " ++ toString c ++ "): ").data) []
    simp [String.data_append, List.append_assoc]
  · intro h
    rw [if_neg (by simp [h])]
    apply occursIn_of_data _ _
      (("Error processing audio (exit code " ++ toString c ++ "): ").data) []
    simp [String.data_append, List.append_assoc]

/-- Witness for C5: exit code 7 with "decode failed" on the error stream. -/
theorem process_audio_nonzero_exit_witness :
    ∃ msg, (process_audio (fun _ _ => ⟨7, "", "decode failed"⟩)
        ⟨[("models/ggml-tiny.bin", ""), ("/tmp/audio.wav", "")], [], [], []⟩
        "/tmp/audio.wav" "tiny").1 = Except.error (PyError.exc msg)
      ∧ occursIn (toString (7 : Int)) msg = true
      ∧ ("decode failed" ≠ "" → occursIn "decode failed" msg = true)
      ∧ ("decode failed" = "" → occursIn "Unknown error" msg = true) :=
  process_audio_nonzero_exit _ _ _ _ 7 "" "decode failed"
    (by decide) (by decide) rfl (by decide)

/-- Amended claim C1: on every successful run the returned transcript has
no leading or trailing whitespace, and it is computed from the decoded raw
output by strip, a single left-to-right removal pass of the
`[BLANK_AUDIO]` sentinel, and a final strip; in particular a raw output
that is exactly the sentinel (up to surrounding whitespace) yields the
empty string as a success. (The original claim's blanket "contains no
occurrence of the sentinel" fails: one removal pass can splice a new
occurrence — see the counterexample.) -/
theorem process_audio_success_clean (run : String → Env → SubprocResult)
    (st : PyState) (wav m out err : String)
    (hm : fileExists st (modelPath m) = true)
    (hw : fileExists st wav = true)
    (hr : run (fullCommand st.environ wav m) (childEnv st.environ) = ⟨0, out, err⟩) :
    ∃ r, (process_audio run st wav m).1 = Except.ok r
      ∧ r = pyStrip (pyReplace (pyStrip out) "[BLANK_AUDIO]" "")
      ∧ noEdgeWS r = true
      ∧ (pyStrip out = "[BLANK_AUDIO]" → r = "") := by
  refine ⟨pyStrip (pyReplace (pyStrip out) "[BLANK_AUDIO]" ""), ?_, rfl,
    noEdgeWS_pyStrip _, ?_⟩
  · simp [process_audio, hm, hw, hr]
  · intro h
    rw [h]
    decide

/-- Witness for C1 (amended): the engine prints the sentinel surrounded by
whitespace; the transcript is the empty string, as a success. -/
theorem process_audio_success_clean_witness :
    ∃ r, (process_audio (fun _ _ => ⟨0, "  [BLANK_AUDIO] ", ""⟩)
        ⟨[("models/ggml-tiny.bin", ""), ("/tmp/audio.wav", "")], [], [], []⟩
        "/tmp/audio.wav" "tiny").1 = Except.ok r
      ∧ r = pyStrip (pyReplace (pyStrip "  [BLANK_AUDIO] ") "[BLANK_AUDIO]" "")
      ∧ noEdgeWS r = true
      ∧ (pyStrip "  [BLANK_AUDIO] " = "[BLANK_AUDIO]" → r = "") :=
  process_audio_success_clean _ _ _ _ "  [BLANK_AUDIO] " ""
    (by decide) (by decide) rfl

/-- Counterexample to C1 as stated: for the UTF-8 raw output
`[BLANK[BLANK_AUDIO]_AUDIO]` the successful result is itself the literal
`[BLANK_AUDIO]` token — the single replacement pass splices a new
occurrence — so the returned string does contain the sentinel. -/
theorem process_audio_blank_splice_counterexample :
    (process_audio (fun _ _ => ⟨0, "[BLANK[BLANK_AUDIO]_AUDIO]", ""⟩)
        ⟨[("models/ggml-tiny.bin", ""), ("/tmp/audio.wav", "")], [], [], []⟩
        "/tmp/audio.wav" "tiny").1 = Except.ok "[BLANK_AUDIO]"
    ∧ occursIn "[BLANK_AUDIO]" "[BLANK_AUDIO]" = true := by
  constructor
  · rfl
  · decide

/-- When both existence checks pass, exactly one spawn of the full command
with the child environment is appended. -/
theorem process_audio_spawn_success (run : String → Env → SubprocResult)
    (st : PyState) (wav m : String)
    (hm : fileExists st (modelPath m) = true)
    (hw : fileExists st wav = true) :
    (process_audio run st wav m).2.spawned
      = st.spawned ++ [⟨fullCommand st.environ wav m, true, childEnv st.environ⟩] := by
  by_cases hc : (run (fullCommand st.environ wav m) (childEnv st.environ)).returncode = 0
  · simp [process_audio, hm, hw, hc]
  · simp [process_audio, hm, hw, hc]

/-- Claim C7: the child environment handed to the subprocess is the parent
environment with `LD_LIBRARY_PATH` set to the bin directory prepended with
a colon to the previous non-empty value; every other variable keeps its
parent value, and the environment of the recorded spawn is exactly this
child environment. -/
theorem childEnv_ld_library_path_concat (environ : Env) (v : String)
    (hv : envGet environ "LD_LIBRARY_PATH" = some v) (hne : v ≠ "") :
    envGet (childEnv environ) "LD_LIBRARY_PATH"
        = some (binPath environ ++ ":" ++ v)
    ∧ (∀ k, k ≠ "LD_LIBRARY_PATH" → envGet (childEnv environ) k = envGet environ k)
    ∧ ∀ (run : String → Env → SubprocResult) (st : PyState) (wav m : String),
        st.environ = environ →
        fileExists st (modelPath m) = true → fileExists st wav = true →
        (process_audio run st wav m).2.spawned
          = st.spawned ++ [⟨fullCommand environ wav m, true, childEnv environ⟩] := by
  refine ⟨?_, ?_, ?_⟩
  · simp only [childEnv, hv, Option.getD_some]
    rw [if_pos hne]
    exact envGet_envSet_self _ _ _
  · intro k hk
    simp only [childEnv]
    exact envGet_envSet_ne _ _ _ _ hk
  · intro run st wav m hst hm hw
    subst hst
    exact process_audio_spawn_success run st wav m hm hw

/-- Witness for C7 with a prior `LD_LIBRARY_PATH` of `/lib`. -/
theorem childEnv_ld_library_path_concat_witness :
    envGet (childEnv [("LD_LIBRARY_PATH", "/lib")]) "LD_LIBRARY_PATH"
        = some (binPath [("LD_LIBRARY_PATH", "/lib")] ++ ":" ++ "/lib")
    ∧ envGet (childEnv [("LD_LIBRARY_PATH", "/lib")]) "HOME"
        = envGet [("LD_LIBRARY_PATH", "/lib")] "HOME" :=
  ⟨(childEnv_ld_library_path_concat [("LD_LIBRARY_PATH", "/lib")] "/lib"
      (by decide) (by decide)).1,
    (childEnv_ld_library_path_concat [("LD_LIBRARY_PATH", "/lib")] "/lib"
      (by decide) (by decide)).2.1 "HOME" (by decide)⟩

/-- Claim C9: with `LAMBDA_TASK_ROOT` unset, the executable path resolves
to `./bin/whisper-cli`, the prepended library directory to `./bin`, and a
run with both files present proceeds to spawn the subprocess — the missing
variable raises no error. -/
theorem taskRoot_unset_defaults (environ : Env)
    (h : envGet environ "LAMBDA_TASK_ROOT" = none) :
    whisperCliPath environ = "./bin/whisper-cli"
    ∧ binPath environ = "./bin"
    ∧ ∀ (run : String → Env → SubprocResult) (st : PyState) (wav m : String),
        st.environ = environ →
        fileExists st (modelPath m) = true → fileExists st wav = true →
        (process_audio run st wav m).2.spawned
          = st.spawned ++ [⟨fullCommand environ wav m, true, childEnv environ⟩] := by
  refine ⟨?_, ?_, ?_⟩
  · simp only [whisperCliPath, taskRoot, h, Option.getD_none]
    decide
  · simp only [binPath, taskRoot, h, Option.getD_none]
    decide
  · intro run st wav m hst hm hw
    subst hst
    exact process_audio_spawn_success run st wav m hm hw

/-- Witness for C9 at an environment without `LAMBDA_TASK_ROOT`. -/
theorem taskRoot_unset_defaults_witness :
    whisperCliPath [("PATH", "/usr/bin")] = "./bin/whisper-cli"
    ∧ binPath [("PATH", "/usr/bin")] = "./bin" :=
  ⟨(taskRoot_unset_defaults [("PATH", "/usr/bin")] (by decide)).1,
    (taskRoot_unset_defaults [("PATH", "/usr/bin")] (by decide)).2.1⟩

/-- Claim C10: `process_audio` never mutates the parent environment — the
returned state carries `os.environ` unchanged — and any spawn it adds uses
an environment that agrees with the parent on every variable except
`LD_LIBRARY_PATH`. -/
theorem process_audio_environ_frame (run : String → Env → SubprocResult)
    (st : PyState) (wav m : String) :
    (process_audio run st wav m).2.environ = st.environ
    ∧ ∀ sp, sp ∈ (process_audio run st wav m).2.spawned →
        sp ∈ st.spawned
        ∨ (envGet sp.env "LD_LIBRARY_PATH"
              = some (if (envGet st.environ "LD_LIBRARY_PATH").getD "" ≠ ""
                  then binPath st.environ ++ ":"
                    ++ (envGet st.environ "LD_LIBRARY_PATH").getD ""
                  else binPath st.environ)
            ∧ ∀ k, k ≠ "LD_LIBRARY_PATH" → envGet sp.env k = envGet st.environ k) := by
  constructor
  · exact (process_audio_state run st wav m).2.1
  · intro sp hsp
    rcases process_audio_spawned run st wav m with h | h
    · rw [h] at hsp
      exact Or.inl hsp
    · rw [h] at hsp
      rcases List.mem_append.mp hsp with h1 | h1
      · exact Or.inl h1
      · right
        have hsp2 : sp = ⟨fullCommand st.environ wav m, true, childEnv st.environ⟩ := by
          simpa using h1
        subst hsp2
        constructor
        · simp only [childEnv]
          exact envGet_envSet_self _ _ _
        · intro k hk
          simp only [childEnv]
          exact envGet_envSet_ne _ _ _ _ hk

/-- Witness for C10 at a concrete state whose spawn log starts empty. -/
theorem process_audio_environ_frame_witness :
    (process_audio (fun _ _ => ⟨0, "hi", ""⟩)
        ⟨[("models/ggml-tiny.bin", ""), ("/tmp/audio.wav", "")],
          [("LD_LIBRARY_PATH", "/lib"), ("PATH", "/usr/bin")], [], []⟩
        "/tmp/audio.wav" "tiny").2.environ
      = [("LD_LIBRARY_PATH", "/lib"), ("PATH", "/usr/bin")]
    ∧ ∀ k, k ≠ "LD_LIBRARY_PATH" →
        envGet (childEnv [("LD_LIBRARY_PATH", "/lib"), ("PATH", "/usr/bin")]) k
          = envGet [("LD_LIBRARY_PATH", "/lib"), ("PATH", "/usr/bin")] k := by
  constructor
  · exact (process_audio_environ_frame (fun _ _ => ⟨0, "hi", ""⟩)
      ⟨[("models/ggml-tiny.bin", ""), ("/tmp/audio.wav", "")],
        [("LD_LIBRARY_PATH", "/lib"), ("PATH", "/usr/bin")], [], []⟩
      "/tmp/audio.wav" "tiny").1
  · intro k hk
    exact ((process_audio_environ_frame (fun _ _ => ⟨0, "hi", ""⟩)
      ⟨[("models/ggml-tiny.bin", ""), ("/tmp/audio.wav", "")],
        [("LD_LIBRARY_PATH", "/lib"), ("PATH", "/usr/bin")], [], []⟩
      "/tmp/audio.wav" "tiny").2
        ⟨fullCommand [("LD_LIBRARY_PATH", "/lib"), ("PATH", "/usr/bin")]
            "/tmp/audio.wav" "tiny", true,
          childEnv [("LD_LIBRARY_PATH", "/lib"), ("PATH", "/usr/bin")]⟩
        (by rw [process_audio_spawn_success _ _ _ _ (by decide) (by decide)]
            simp)).elim
      (fun hmem => absurd hmem (by decide))
      (fun hh => hh.2 k hk)

/-- Claim C8: when the event's record list is empty, or its first record
lacks the bucket-name or the object-key field, the extraction raises an
index or key error, the handler propagates it, and the state — hence any
bucket or key actually used — is untouched: nothing is defaulted. -/
theorem lambda_handler_lookup_errors (run : String → Env → SubprocResult)
    (st : PyState) :
    (∀ event err, extractBucketKey event = Except.error err →
        lambda_handler run st event = (Except.error err, st))
    ∧ (∀ fields, List.lookup "Records" fields = some (JVal.jarr []) →
        extractBucketKey (JVal.jobj fields) = Except.error (PyError.indexError 0))
    ∧ (∀ fields r rest rf sf bf,
        List.lookup "Records" fields = some (JVal.jarr (r :: rest)) →
        r = JVal.jobj rf →
        List.lookup "s3" rf = some (JVal.jobj sf) →
        List.lookup "bucket" sf = some (JVal.jobj bf) →
        List.lookup "name" bf = none →
        extractBucketKey (JVal.jobj fields) = Except.error (PyError.keyError "name"))
    ∧ (∀ fields r rest rf sf bf obf bname,
        List.lookup "Records" fields = some (JVal.jarr (r :: rest)) →
        r = JVal.jobj rf →
        List.lookup "s3" rf = some (JVal.jobj sf) →
        List.lookup "bucket" sf = some (JVal.jobj bf) →
        List.lookup "name" bf = some (JVal.jstr bname) →
        List.lookup "object" sf = some (JVal.jobj obf) →
        List.lookup "key" obf = none →
        extractBucketKey (JVal.jobj fields) = Except.error (PyError.keyError "key")) := by
  refine ⟨?_, ?_, ?_, ?_⟩
  · intro event err h
    simp [lambda_handler, h]
  · intro fields h
    simp [extractBucketKey, getBucketName, getObjectKey, jGet, jIndex, jStr, h,
      Except.bind, bind, Except.instMonad, Except.map, Functor.map]
  · intro fields r rest rf sf bf h1 h2 h3 h4 h5
    subst h2
    simp [extractBucketKey, getBucketName, getObjectKey, jGet, jIndex, jStr,
      h1, h3, h4, h5, Except.bind, bind, Except.instMonad, Except.map, Functor.map]
  · intro fields r rest rf sf bf obf bname h1 h2 h3 h4 h5 h6 h7
    subst h2
    simp [extractBucketKey, getBucketName, getObjectKey, jGet, jIndex, jStr,
      h1, h3, h4, h5, h6, h7, Except.bind, bind, Except.instMonad, Except.map,
      Functor.map]

/-- Witness for C8: an event with an empty record list fails with an index
error and leaves the state unchanged. -/
theorem lambda_handler_lookup_errors_witness :
    lambda_handler (fun _ _ => ⟨0, "", ""⟩) ⟨[], [], [], []⟩
        (JVal.jobj [("Records", JVal.jarr [])])
      = (Except.error (PyError.indexError 0), ⟨[], [], [], []⟩) := by
  have h := lambda_handler_lookup_errors (fun _ _ => ⟨0, "", ""⟩) ⟨[], [], [], []⟩
  exact h.1 _ _ (h.2.1 [("Records", JVal.jarr [])] rfl)

/-- Claim C2: for a trigger event naming bucket `b` and key `k`, with the
object present and the transcription of the staged file succeeding with
transcript `t`, the handler returns status 200 and the published object
lives in bucket `b` under exactly `processed/<k>.json` with the
JSON-serialized transcript as its body. -/
theorem lambda_handler_roundtrip (run : String → Env → SubprocResult)
    (st : PyState) (event : JVal) (b k body t : String)
    (hbk : extractBucketKey event = Except.ok (b, k))
    (hobj : s3Lookup st.s3 b k = some body)
    (hp : (process_audio run (fsWrite st "/tmp/audio.wav" body)
        "/tmp/audio.wav" "tiny").1 = Except.ok t) :
    (lambda_handler run st event).1
        = Except.ok ⟨200, jsonDumpsStr "Processing complete"⟩
    ∧ s3Lookup (lambda_handler run st event).2.s3 b ("processed/" ++ k ++ ".json")
        = some (jsonDumpsStr t) := by
  have hfe : fileExists (fsWrite st "/tmp/audio.wav" body) "/tmp/audio.wav" = true := by
    simp [fileExists, fsWrite, List.lookup_cons]
  rcases hpa : process_audio run (fsWrite st "/tmp/audio.wav" body)
      "/tmp/audio.wav" "tiny" with ⟨res, st2⟩
  have hres : res = Except.ok t := by
    have := hp
    rw [hpa] at this
    exact this
  subst hres
  have hs3 : st2.s3 = st.s3 := by
    have h2 := (process_audio_state run (fsWrite st "/tmp/audio.wav" body)
      "/tmp/audio.wav" "tiny").2.2
    rw [hpa] at h2
    exact h2
  constructor
  · simp [lambda_handler, hbk, s3Download, hobj, hfe, hpa]
  · simp [lambda_handler, hbk, s3Download, hobj, hfe, hpa]
    simp [s3Lookup, List.find?_cons]

/-- Witness for C2 with bucket `buck` and key `audio/sample.wav`. -/
theorem lambda_handler_roundtrip_witness :
    (lambda_handler (fun _ _ => ⟨0, " hello ", ""⟩)
        ⟨[("models/ggml-tiny.bin", "")], [],
          [("buck", "audio/sample.wav", "RIFF")], []⟩
        (JVal.jobj [("Records", JVal.jarr [JVal.jobj [("s3", JVal.jobj
          [("bucket", JVal.jobj [("name", JVal.jstr "buck")]),
            ("object", JVal.jobj [("key", JVal.jstr "audio/sample.wav")])])]])])).1
      = Except.ok ⟨200, jsonDumpsStr "Processing complete"⟩
    ∧ s3Lookup (lambda_handler (fun _ _ => ⟨0, " hello ", ""⟩)
        ⟨[("models/ggml-tiny.bin", "")], [],
          [("buck", "audio/sample.wav", "RIFF")], []⟩
        (JVal.jobj [("Records", JVal.jarr [JVal.jobj [("s3", JVal.jobj
          [("bucket", JVal.jobj [("name", JVal.jstr "buck")]),
            ("object", JVal.jobj [("key", JVal.jstr "audio/sample.wav")])])]])])).2.s3
        "buck" ("processed/" ++ "audio/sample.wav" ++ ".json")
      = some (jsonDumpsStr "hello") :=
  lambda_handler_roundtrip (fun _ _ => ⟨0, " hello ", ""⟩)
    ⟨[("models/ggml-tiny.bin", "")], [], [("buck", "audio/sample.wav", "RIFF")], []⟩
    (JVal.jobj [("Records", JVal.jarr [JVal.jobj [("s3", JVal.jobj
      [("bucket", JVal.jobj [("name", JVal.jstr "buck")]),
        ("object", JVal.jobj [("key", JVal.jstr "audio/sample.wav")])])]])])
    "buck" "audio/sample.wav" "RIFF" "hello" rfl rfl rfl

/-- Scanning a separator-free word just accumulates it. -/
theorem wordsGo_append_word (w : List Char) (hw : ∀ c ∈ w, isIFS c = false) :
    ∀ (acc l : List Char), wordsGo acc (w ++ l) = wordsGo (w.reverse ++ acc) l := by
  induction w with
  | nil => intro acc l; simp
  | cons c t ih =>
    intro acc l
    have hc : isIFS c = false := hw c (by simp)
    have ht : ∀ x ∈ t, isIFS x = false := fun x hx => hw x (by simp [hx])
    rw [List.cons_append]
    simp only [wordsGo, hc]
    rw [ih ht (c :: acc) l]
    simp [List.append_assoc]

/-- A separator closes the currently accumulated non-empty word. -/
theorem wordsGo_sep (acc : List Char) (hacc : acc ≠ []) (c : Char)
    (hc : isIFS c = true) (l : List Char) :
    wordsGo acc (c :: l) = acc.reverse :: wordsGo [] l := by
  simp [wordsGo, hc, hacc]

/-- End of input closes the currently accumulated non-empty word. -/
theorem wordsGo_last (acc : List Char) (hacc : acc ≠ []) :
    wordsGo acc [] = [acc.reverse] := by
  simp [wordsGo, hacc]

/-- `pathJoin` keeps a non-empty second component non-empty. -/
theorem pathJoin_data_ne_nil (a b : String) (hb : b.data ≠ []) :
    (pathJoin a b).data ≠ [] := by
  rw [pathJoin]
  split
  · exact hb
  · split
    · intro hcontra
      rw [String.data_append] at hcontra
      exact hb (List.append_eq_nil.mp hcontra).2
    · intro hcontra
      rw [String.data_append, String.data_append] at hcontra
      exact hb (List.append_eq_nil.mp hcontra).2

/-- Amended claim C6: the external executable is invoked through the shell
as the single interpolated string `<cli> -m <model> -f <wav> -nt` (the
spawn carries `shell = true`); whenever the executable path, the model
name and the audio path contain no field-separator characters, shell field
splitting of that string yields exactly the distinct arguments
`[-m, <modelPath>, -f, <wavPath>, -nt]` after the executable. (The
original claim's "no shell interpretation" fails: a path containing a
space is split — see the counterexample.) -/
theorem fullCommand_shell_fields (environ : Env) (wav m : String)
    (hcli : ∀ c ∈ (whisperCliPath environ).data, isIFS c = false)
    (hmn : ∀ c ∈ m.data, isIFS c = false)
    (hwv : ∀ c ∈ wav.data, isIFS c = false)
    (hwne : wav.data ≠ []) :
    shellSplit (fullCommand environ wav m)
      = [whisperCliPath environ, "-m", modelPath m, "-f", wav, "-nt"]
    ∧ ∀ (run : String → Env → SubprocResult) (st : PyState),
        st.environ = environ →
        fileExists st (modelPath m) = true → fileExists st wav = true →
        (process_audio run st wav m).2.spawned
          = st.spawned ++ [⟨fullCommand environ wav m, true, childEnv environ⟩] := by
  have hmp : ∀ c ∈ (modelPath m).data, isIFS c = false := by
    intro c hc
    rw [modelPath, String.data_append, String.data_append] at hc
    rcases List.mem_append.mp hc with h | h
    · rcases List.mem_append.mp h with h1 | h1
      · exact (by decide : ∀ x ∈ ("models/ggml-" : String).data, isIFS x = false) c h1
      · exact hmn c h1
    · exact (by decide : ∀ x ∈ (".bin" : String).data, isIFS x = false) c h
  have hmpne : (modelPath m).data ≠ [] := by
    rw [modelPath, String.data_append, String.data_append]
    intro hcontra
    exact absurd (List.append_eq_nil.mp (List.append_eq_nil.mp hcontra).1).1 (by decide)
  have hcline : (whisperCliPath environ).data ≠ [] := by
    rw [whisperCliPath]
    exact pathJoin_data_ne_nil _ _ (by decide)
  have hmk : ∀ s : String, String.mk s.data = s := fun s => rfl
  have hdata : (fullCommand environ wav m).data
      = (whisperCliPath environ).data
        ++ (' ' :: (('-' :: ('m' :: [])) ++ (' '
        :: ((modelPath m).data ++ (' ' :: (('-' :: ('f' :: [])) ++ (' '
        :: (wav.data ++ (' ' :: ('-' :: ('n' :: ('t' :: [])))))))))))) := by
    rw [fullCommand]
    simp only [String.data_append]
    simp [List.append_assoc]
  constructor
  · rw [shellSplit, hdata]
    rw [wordsGo_append_word _ hcli]
    rw [List.append_nil]
    rw [wordsGo_sep _ (by simpa using hcline) ' ' (by decide)]
    rw [wordsGo_append_word ('-' :: ('m' :: [])) (by decide)]
    rw [List.append_nil]
    rw [wordsGo_sep _ (by decide) ' ' (by decide)]
    rw [wordsGo_append_word _ hmp]
    rw [List.append_nil]
    rw [wordsGo_sep _ (by simpa using hmpne) ' ' (by decide)]
    rw [wordsGo_append_word ('-' :: ('f' :: [])) (by decide)]
    rw [List.append_nil]
    rw [wordsGo_sep _ (by decide) ' ' (by decide)]
    rw [wordsGo_append_word _ hwv]
    rw [List.append_nil]
    rw [wordsGo_sep _ (by simpa using hwne) ' ' (by decide)]
    rw [(by decide : wordsGo ([] : List Char) ('-' :: ('n' :: ('t' :: [])))
        = [('-' :: ('n' :: ('t' :: [])))])]
    simp only [List.map_cons, List.map_nil, List.reverse_reverse, hmk]
  · intro run st hst hm2 hw2
    subst hst
    exact process_audio_spawn_success run st wav m hm2 hw2

/-- Witness for C6 (amended): a metacharacter-free path splits back into
the intended argument vector. -/
theorem fullCommand_shell_fields_witness :
    shellSplit (fullCommand [] "/tmp/audio.wav" "tiny")
      = [whisperCliPath [], "-m", modelPath "tiny", "-f", "/tmp/audio.wav", "-nt"] :=
  (fullCommand_shell_fields [] "/tmp/audio.wav" "tiny"
    (by decide) (by decide) (by decide) (by decide)).1

/-- Counterexample to C6 as stated: the subprocess is started through the
shell with one interpolated string, and for the audio path `a b.wav` the
shell's field splitting produces seven arguments — the path is broken at
the space — rather than the claimed exact argument vector. -/
theorem fullCommand_shell_split_counterexample :
    (process_audio (fun _ _ => ⟨0, "", ""⟩)
        ⟨[("models/ggml-tiny.bin", ""), ("a b.wav", "")], [], [], []⟩
        "a b.wav" "tiny").2.spawned
      = [⟨fullCommand [] "a b.wav" "tiny", true, childEnv []⟩]
    ∧ shellSplit (fullCommand [] "a b.wav" "tiny")
        = ["./bin/whisper-cli", "-m", "models/ggml-tiny.bin", "-f", "a", "b.wav", "-nt"]
    ∧ shellSplit (fullCommand [] "a b.wav" "tiny")
        ≠ [whisperCliPath [], "-m", modelPath "tiny", "-f", "a b.wav", "-nt"] :=
  ⟨rfl, by decide, by decide⟩
